import Mathlib

/-!
Shallow embedding of the hyperliquid-terminal monitoring pipeline:
liquidation-risk calculator, distance-to-liquidation, risk levels,
HTTP retry loop, trade deduplication, per-asset watermark filtering,
and the alert debouncer.  Prices, sizes and rates are modelled as
rationals; floating-point infinity is modelled by an explicit
constructor.
-/

namespace HLTerm

/-- The Python str.upper method restricted to the ASCII side labels used by the
monitors, written over the character list so that it evaluates in the
kernel. -/
def strUpper (s : String) : String := String.mk (s.data.map Char.toUpper)

theorem strUpper_LONG : strUpper "LONG" = "LONG" := rfl

theorem strUpper_SHORT : strUpper "SHORT" = "SHORT" := rfl

theorem short_ne_long : ("SHORT" : String) ≠ "LONG" := by decide

theorem long_ne_short : ("LONG" : String) ≠ "SHORT" := by decide

/-- Result of a distance computation: either the float-inf sentinel
returned for non-positive prices, or a finite rational value. -/
inductive Dist where
  | inf : Dist
  | val : ℚ → Dist
deriving DecidableEq, Repr

/-- Risk classification used by the monitors. -/
inductive RiskLevel where
  | CRITICAL : RiskLevel
  | HIGH : RiskLevel
  | MEDIUM : RiskLevel
  | LOW : RiskLevel
deriving DecidableEq, Repr

namespace PositionRiskCalculator

/-- `PositionRiskCalculator.calculate_liquidation_price` from
`positions_at_risk_monitor.py` (identical body in
the `LiquidationRiskCalculator` of `liquid_positions_monitor.py`): sentinel 0
on a non-positive input, otherwise the side-dependent formula with
maintenance margin rate defaulting to 0.004. -/
def calculate_liquidation_price (entry_price leverage position_size : ℚ)
    (side : String) (maintenance_margin_rate : ℚ := 1/250) : ℚ :=
  if leverage ≤ 0 ∨ position_size ≤ 0 ∨ entry_price ≤ 0 then 0
  else if strUpper side = "LONG" then
    entry_price * (1 - maintenance_margin_rate * leverage) / (1 - maintenance_margin_rate)
  else
    entry_price * (1 + maintenance_margin_rate * leverage) / (1 + maintenance_margin_rate)

/-- `PositionRiskCalculator.calculate_distance_to_liquidation` from
`positions_at_risk_monitor.py`: float-inf on non-positive prices, a
side-dependent signed percentage otherwise (no clamp, no floor). -/
def calculate_distance_to_liquidation (current_price liquidation_price : ℚ)
    (side : String) : Dist :=
  if current_price ≤ 0 ∨ liquidation_price ≤ 0 then .inf
  else if strUpper side = "LONG" then
    .val ((current_price - liquidation_price) / liquidation_price * 100)
  else
    .val ((liquidation_price - current_price) / current_price * 100)

end PositionRiskCalculator

namespace LiquidationRiskCalculator

/-- `LiquidationRiskCalculator.calculate_liquidation_price` from
`liquid_positions_monitor.py` (textually the same computation as the
`PositionRiskCalculator` copy). -/
def calculate_liquidation_price (entry_price leverage position_size : ℚ)
    (side : String) (maintenance_margin_rate : ℚ := 1/250) : ℚ :=
  if leverage ≤ 0 ∨ position_size ≤ 0 ∨ entry_price ≤ 0 then 0
  else if strUpper side = "LONG" then
    entry_price * (1 - maintenance_margin_rate * leverage) / (1 - maintenance_margin_rate)
  else
    entry_price * (1 + maintenance_margin_rate * leverage) / (1 + maintenance_margin_rate)

/-- `LiquidationRiskCalculator.calculate_distance_to_liquidation` from
`liquid_positions_monitor.py`: float-inf on non-positive prices,
otherwise `max 0 ((current - liq) / current * 100)` for both sides. -/
def calculate_distance_to_liquidation (current_price liquidation_price : ℚ)
    (side : String) : Dist :=
  if current_price ≤ 0 ∨ liquidation_price ≤ 0 then .inf
  else .val (max 0 ((current_price - liquidation_price) / current_price * 100))

end LiquidationRiskCalculator

namespace RealLiquidationsMonitor

/-- The signed (unclamped) percentage computed inside
`RealLiquidationsMonitor._calculate_distance_to_liquidation`
(`real_liquidations_monitor.py`): denominator is the current price,
sign depends on the side. -/
def unclamped_distance (current_price liquidation_price : ℚ)
    (side : String) : ℚ :=
  if strUpper side = "SHORT" then
    (liquidation_price - current_price) / current_price * 100
  else
    (current_price - liquidation_price) / current_price * 100

/-- `RealLiquidationsMonitor._calculate_distance_to_liquidation` from
`real_liquidations_monitor.py`: float-inf on non-positive prices;
otherwise clamp the signed percentage to `≥ 0`, and floor a strictly
positive result below 0.01 up to 0.01. -/
def calculate_distance_to_liquidation (current_price liquidation_price : ℚ)
    (side : String) : Dist :=
  if current_price ≤ 0 ∨ liquidation_price ≤ 0 then .inf
  else
    let d := max 0 (unclamped_distance current_price liquidation_price side)
    if 0 < d ∧ d < 1/100 then .val (1/100) else .val d

end RealLiquidationsMonitor

namespace LiquidPositionsMonitor

/-- `LiquidPositionsMonitor._calculate_risk_level` from
`liquid_positions_monitor.py`: CRITICAL at `≤ 2`, HIGH at `≤ 5`,
MEDIUM at `≤ 10`, else LOW. -/
def calculate_risk_level (distance_to_liquidation : ℚ) : RiskLevel :=
  if distance_to_liquidation ≤ 2 then .CRITICAL
  else if distance_to_liquidation ≤ 5 then .HIGH
  else if distance_to_liquidation ≤ 10 then .MEDIUM
  else .LOW

end LiquidPositionsMonitor

/-! ### Connection manager: `HyperliquidAPI._make_request` (`api_client.py`) -/

/-- Terminal outcome of `_make_request`: the dict
a success dict carrying the data, or a failure dict carrying the error. -/
inductive ReqResult where
  | success : String → ReqResult
  | failure : String → ReqResult
deriving DecidableEq, Repr

namespace HyperliquidAPI

/-- The retry loop body of `HyperliquidAPI._make_request`
(`api_client.py`).  `out a` is the outcome of attempt `a` (`.ok` = HTTP
success, `.error e` = the message of the caught exception).  The recursion
argument mirrors `for attempt in range(max_retries)`; the result carries
the terminal value, the list of backoff sleeps issued (in seconds, as
`0.5 * 2 ^ attempt`, only when `attempt < max_retries - 1`), and the
number of attempts issued. -/
def make_request_go (out : Nat → Except String String) (max_retries : Nat) :
    Nat → Nat → Option String → ReqResult × List ℚ × Nat
  | 0, _, lastErr => (.failure (lastErr.getD "Unknown error"), [], 0)
  | remaining + 1, attempt, _ =>
    match out attempt with
    | .ok d => (.success d, [], 1)
    | .error e =>
      let rest := make_request_go out max_retries remaining (attempt + 1) (some e)
      if attempt < max_retries - 1 then
        (rest.1, (1/2 : ℚ) * 2 ^ attempt :: rest.2.1, rest.2.2 + 1)
      else
        (rest.1, rest.2.1, rest.2.2 + 1)

/-- `HyperliquidAPI._make_request` with its default `max_retries = 3`,
abstracted over the per-attempt outcomes. -/
def make_request (out : Nat → Except String String)
    (max_retries : Nat := 3) : ReqResult × List ℚ × Nat :=
  make_request_go out max_retries max_retries 0 none

end HyperliquidAPI

/-! ### Event deduplication: `LargeTradesMonitor` (`large_trades.py`) -/

/-- The fields of a websocket trade message that `_trade_key` reads.
Python stringifies every field (`str(...)`); a missing `tid`/`hash` is
the empty string (falsy, like Python `None`/`""`). -/
structure WsTrade where
  coin : String
  side : String
  px : String
  sz : String
  time : String
  tid : String
  hash : String
deriving DecidableEq, Repr

namespace LargeTradesMonitor

/-- `LargeTradesMonitor._trade_key`: the composite dedup key
joining coin, tid-or-hash, time, side, px and sz with colons, where a
falsy tid falls back to the hash field. -/
def trade_key (t : WsTrade) : String :=
  t.coin ++ ":" ++ (if t.tid ≠ "" then t.tid else t.hash) ++ ":" ++ t.time
    ++ ":" ++ t.side ++ ":" ++ t.px ++ ":" ++ t.sz

/-- Appending to `self.seen`, a `deque(maxlen=5000)`: when the deque is
full the oldest (leftmost) element is discarded.  The list head is the
oldest key. -/
def push_seen (seen : List String) (k : String) : List String :=
  if seen.length < 5000 then seen ++ [k] else seen.tail ++ [k]

/-- The dedup gate of `LargeTradesMonitor._handle_trade`: a key already
in `self.seen` returns immediately (second component `false` = dropped);
otherwise the key is remembered and the trade is processed (`true`). -/
def handle_trade (seen : List String) (t : WsTrade) : List String × Bool :=
  let k := trade_key t
  if k ∈ seen then (seen, false) else (push_seen seen k, true)

end LargeTradesMonitor

/-! ### Watermark filtering: `check_recent_liquidations`
(`liquidations_monitor_advanced.py` and `liquidations_monitor.py`) -/

/-- A trade returned by `recentTrades`, restricted to the fields the
liquidation monitors read: the `liquidation` flag, `time` (ms), price,
size and side (with the Python `.get` defaults already applied). -/
structure LiqTrade where
  liquidation : Bool
  time : Int
  px : ℚ
  sz : ℚ
  side : String
deriving DecidableEq, Repr

/-- The state of the slot of one asset in a liquidations monitor: the
`last_processed_time` watermark (`none` = asset not yet in the dict),
the displayed liquidations, and the session statistics that
`update_stats` touches for this asset. -/
structure MonState where
  wm : Option Int
  displayed : List LiqTrade
  total_liquidations : Nat
  total_volume_usd : ℚ
deriving DecidableEq, Repr

namespace LiquidationsMonitorAdvanced

/-- One iteration of the trade loop in
`LiquidationsMonitor.check_recent_liquidations`
(`liquidations_monitor_advanced.py`): skip non-liquidations; on the
first liquidation for the asset only install the watermark; drop events
at or below the watermark; otherwise advance the watermark to the max
and display/count the event when `px * sz` reaches the USD threshold. -/
def check_trade (threshold : ℚ) (s : MonState) (t : LiqTrade) : MonState :=
  if t.liquidation = false then s
  else
    match s.wm with
    | none => { s with wm := some t.time }
    | some w =>
      if t.time ≤ w then s
      else
        let s1 := { s with wm := some (max t.time w) }
        let usd := t.px * t.sz
        if threshold ≤ usd then
          { s1 with displayed := s1.displayed ++ [t],
                    total_liquidations := s1.total_liquidations + 1,
                    total_volume_usd := s1.total_volume_usd + usd }
        else s1

/-- The whole per-asset pass over one `recentTrades` page. -/
def check_recent_liquidations (threshold : ℚ) (s : MonState)
    (trades : List LiqTrade) : MonState :=
  trades.foldl (check_trade threshold) s

end LiquidationsMonitorAdvanced

namespace LiquidationsMonitorBasic

/-- One iteration of the trade loop in
`LiquidationsMonitor.check_recent_liquidations`
(`liquidations_monitor.py`): a missing watermark is initialised to 0
before the comparison, the watermark is then assigned the (strictly
larger) event timestamp, and qualifying events are displayed (this
variant keeps no session statistics). -/
def check_trade (threshold : ℚ) (s : MonState) (t : LiqTrade) : MonState :=
  if t.liquidation = false then s
  else
    let w := s.wm.getD 0
    if t.time ≤ w then { s with wm := some w }
    else
      let s1 := { s with wm := some t.time }
      let usd := t.px * t.sz
      if threshold ≤ usd then { s1 with displayed := s1.displayed ++ [t] }
      else s1

/-- The whole per-asset pass over one `recentTrades` page. -/
def check_recent_liquidations (threshold : ℚ) (s : MonState)
    (trades : List LiqTrade) : MonState :=
  trades.foldl (check_trade threshold) s

end LiquidationsMonitorBasic

/-! ### Alert debouncer: `PositionsAtRiskMonitor.monitor_risk_factors`
(`positions_at_risk_monitor.py`), `ALERT_CONSECUTIVE_COUNT = 2` -/

/-- Severity attached to a risk factor by `analyze_risk_factors`. -/
inductive Severity where
  | CRITICAL : Severity
  | HIGH : Severity
  | MEDIUM : Severity
  | LOW : Severity
deriving DecidableEq, Repr

namespace PositionsAtRiskMonitor

/-- What one polling cycle does to one `(asset, kind)` slot of
`self.consecutive_alerts`.  `rf = none`: no risk factor of this kind was
produced this cycle, so the loop body never touches the counter.
`rf = some sev`: HIGH/CRITICAL increments the counter and fires
(resetting to 0) once it reaches `ALERT_CONSECUTIVE_COUNT = 2`; any
other severity resets the counter.  The Bool reports whether the alert
fired this cycle. -/
def alert_step (c : Nat) (rf : Option Severity) : Nat × Bool :=
  match rf with
  | none => (c, false)
  | some sev =>
    if sev = .CRITICAL ∨ sev = .HIGH then
      let c1 := c + 1
      if 2 ≤ c1 then (0, true) else (c1, false)
    else (0, false)

/-- Run the debouncer over a sequence of cycles, returning the final
counter and the fire/no-fire outcome of each cycle. -/
def alert_run (c : Nat) : List (Option Severity) → Nat × List Bool
  | [] => (c, [])
  | rf :: rest =>
    let step := alert_step c rf
    let next := alert_run step.1 rest
    (next.1, step.2 :: next.2)

end PositionsAtRiskMonitor

end HLTerm

namespace HLTerm

/-- C1: for every entryPrice > 0, leverage > 0 and size > 0,
`calculate_liquidation_price` (both the `PositionRiskCalculator` and the
`LiquidationRiskCalculator` copy) returns
`entry * (1 - mmr*leverage) / (1 - mmr)` for LONG and
`entry * (1 + mmr*leverage) / (1 + mmr)` for SHORT; any input with
leverage ≤ 0, entryPrice ≤ 0 or size ≤ 0 returns the sentinel 0; the
default maintenance margin rate is 0.004 = 1/250. -/
theorem claim_C1_liquidation_price_formula (e l sz mmr : ℚ) :
    (0 < e → 0 < l → 0 < sz →
      PositionRiskCalculator.calculate_liquidation_price e l sz "LONG" mmr
          = e * (1 - mmr * l) / (1 - mmr)
        ∧ PositionRiskCalculator.calculate_liquidation_price e l sz "SHORT" mmr
          = e * (1 + mmr * l) / (1 + mmr)
        ∧ LiquidationRiskCalculator.calculate_liquidation_price e l sz "LONG" mmr
          = e * (1 - mmr * l) / (1 - mmr)
        ∧ LiquidationRiskCalculator.calculate_liquidation_price e l sz "SHORT" mmr
          = e * (1 + mmr * l) / (1 + mmr)) ∧
    (l ≤ 0 ∨ e ≤ 0 ∨ sz ≤ 0 → ∀ side,
      PositionRiskCalculator.calculate_liquidation_price e l sz side mmr = 0
        ∧ LiquidationRiskCalculator.calculate_liquidation_price e l sz side mmr = 0) ∧
    (∀ side, PositionRiskCalculator.calculate_liquidation_price e l sz side
        = PositionRiskCalculator.calculate_liquidation_price e l sz side (1/250)) := by
  refine ⟨?_, ?_, fun side => rfl⟩
  · intro he hl hsz
    have hguard : ¬ (l ≤ 0 ∨ sz ≤ 0 ∨ e ≤ 0) := by push_neg; exact ⟨hl, hsz, he⟩
    have hshort : strUpper "SHORT" ≠ "LONG" := by rw [strUpper_SHORT]; exact short_ne_long
    refine ⟨?_, ?_, ?_, ?_⟩ <;>
      simp only [PositionRiskCalculator.calculate_liquidation_price,
        LiquidationRiskCalculator.calculate_liquidation_price,
        if_neg hguard, if_pos strUpper_LONG, if_neg hshort]
  · intro h side
    have hguard : l ≤ 0 ∨ sz ≤ 0 ∨ e ≤ 0 := by tauto
    constructor <;>
      simp only [PositionRiskCalculator.calculate_liquidation_price,
        LiquidationRiskCalculator.calculate_liquidation_price, if_pos hguard]

/-- Witness for C1 at entry 100, leverage 20, size 1, default mmr, and
the sentinel case at leverage -1. -/
theorem claim_C1_liquidation_price_formula_witness :
    PositionRiskCalculator.calculate_liquidation_price 100 20 1 "LONG" (1/250)
        = 100 * (1 - (1/250) * 20) / (1 - 1/250)
      ∧ PositionRiskCalculator.calculate_liquidation_price 100 (-1) 1 "LONG" (1/250) = 0 :=
  ⟨((claim_C1_liquidation_price_formula 100 20 1 (1/250)).1
      (by norm_num) (by norm_num) (by norm_num)).1,
   ((claim_C1_liquidation_price_formula 100 (-1) 1 (1/250)).2.1
      (Or.inl (by norm_num)) "LONG").1⟩

/-- C2: the canonical distance-to-liquidation function
(`RealLiquidationsMonitor._calculate_distance_to_liquidation`) returns
the infinity sentinel when either price is non-positive; otherwise it
returns a finite value that is ≥ 0, and whenever the unclamped
percentage lies strictly between 0 and 0.01 the returned value is
exactly 0.01. -/
theorem claim_C2_distance_clamped_floored (current liq : ℚ) (side : String) :
    (current ≤ 0 ∨ liq ≤ 0 →
      RealLiquidationsMonitor.calculate_distance_to_liquidation current liq side = .inf) ∧
    (0 < current → 0 < liq →
      ∃ d, RealLiquidationsMonitor.calculate_distance_to_liquidation current liq side = .val d
        ∧ 0 ≤ d
        ∧ (0 < RealLiquidationsMonitor.unclamped_distance current liq side →
            RealLiquidationsMonitor.unclamped_distance current liq side < 1/100 →
            d = 1/100)) := by
  constructor
  · intro h
    simp only [RealLiquidationsMonitor.calculate_distance_to_liquidation, if_pos h]
  · intro hc hl
    have hguard : ¬ (current ≤ 0 ∨ liq ≤ 0) := by push_neg; exact ⟨hc, hl⟩
    simp only [RealLiquidationsMonitor.calculate_distance_to_liquidation, if_neg hguard]
    set u := RealLiquidationsMonitor.unclamped_distance current liq side with hu
    by_cases hcase : 0 < max 0 u ∧ max 0 u < 1/100
    · rw [if_pos hcase]
      exact ⟨1/100, rfl, by norm_num, fun _ _ => rfl⟩
    · rw [if_neg hcase]
      refine ⟨max 0 u, rfl, le_max_left 0 u, ?_⟩
      intro h1 h2
      exact absurd ⟨lt_max_of_lt_right h1, by rw [max_eq_right (le_of_lt h1)]; exact h2⟩ hcase

/-- Witness for C2: the sentinel case at a negative current price, and
the floor case at current 100 and liquidation price 99.999. -/
theorem claim_C2_distance_clamped_floored_witness :
    RealLiquidationsMonitor.calculate_distance_to_liquidation (-1) 50 "LONG" = .inf
      ∧ ∃ d, RealLiquidationsMonitor.calculate_distance_to_liquidation 100 (99999/1000) "LONG"
            = .val d
          ∧ 0 ≤ d
          ∧ (0 < RealLiquidationsMonitor.unclamped_distance 100 (99999/1000) "LONG" →
              RealLiquidationsMonitor.unclamped_distance 100 (99999/1000) "LONG" < 1/100 →
              d = 1/100) :=
  ⟨(claim_C2_distance_clamped_floored (-1) 50 "LONG").1 (Or.inl (by norm_num)),
   (claim_C2_distance_clamped_floored 100 (99999/1000) "LONG").2 (by norm_num) (by norm_num)⟩

/-- C7 fails as stated: at leverage exactly 1 the LONG liquidation price
equals the entry price (the factor `(1 - mmr*1)/(1 - mmr)` is 1), so it
is not strictly below the entry price. -/
theorem claim_C7_counterexample :
    PositionRiskCalculator.calculate_liquidation_price 100 1 1 "LONG" (1/250) = 100
      ∧ ¬ (PositionRiskCalculator.calculate_liquidation_price 100 1 1 "LONG" (1/250) < 100) := by
  have h : PositionRiskCalculator.calculate_liquidation_price 100 1 1 "LONG" (1/250) = 100 := by
    simp only [PositionRiskCalculator.calculate_liquidation_price]
    rw [if_neg (by norm_num), if_pos strUpper_LONG]
    norm_num
  exact ⟨h, by rw [h]; exact lt_irrefl 100⟩

/-- C7 amended: with the default maintenance margin rate 0.004, the
strict bounds hold exactly when leverage > 1 (at leverage = 1 the
liquidation price equals the entry price): for entryPrice > 0,
size > 0 and leverage > 1, the LONG liquidation price is strictly below
and the SHORT liquidation price strictly above the entry price. -/
theorem claim_C7_amended_strict_bounds (e l sz : ℚ)
    (he : 0 < e) (hsz : 0 < sz) (hl : 1 < l) :
    PositionRiskCalculator.calculate_liquidation_price e l sz "LONG" (1/250) < e
      ∧ e < PositionRiskCalculator.calculate_liquidation_price e l sz "SHORT" (1/250) := by
  have hl0 : 0 < l := lt_trans one_pos hl
  have hguard : ¬ (l ≤ 0 ∨ sz ≤ 0 ∨ e ≤ 0) := by push_neg; exact ⟨hl0, hsz, he⟩
  have hshort : strUpper "SHORT" ≠ "LONG" := by rw [strUpper_SHORT]; exact short_ne_long
  have key : 0 < e * (l - 1) := mul_pos he (by linarith)
  constructor
  · simp only [PositionRiskCalculator.calculate_liquidation_price,
      if_neg hguard, if_pos strUpper_LONG]
    rw [div_lt_iff (by norm_num : (0:ℚ) < 1 - 1/250)]
    nlinarith
  · simp only [PositionRiskCalculator.calculate_liquidation_price,
      if_neg hguard, if_neg hshort]
    rw [lt_div_iff (by norm_num : (0:ℚ) < 1 + 1/250)]
    nlinarith

/-- Witness for the amended C7 at entry 100, leverage 20, size 1. -/
theorem claim_C7_amended_strict_bounds_witness :
    PositionRiskCalculator.calculate_liquidation_price 100 20 1 "LONG" (1/250) < 100
      ∧ 100 < PositionRiskCalculator.calculate_liquidation_price 100 20 1 "SHORT" (1/250) :=
  claim_C7_amended_strict_bounds 100 20 1 (by norm_num) (by norm_num) (by norm_num)

/-- C8: the risk-level classification returns CRITICAL for d ≤ 2, HIGH
for 2 < d ≤ 5, MEDIUM for 5 < d ≤ 10 and LOW for d > 10, and takes the
stated values at the six boundary probes. -/
theorem claim_C8_risk_level_bands (d : ℚ) :
    (d ≤ 2 → LiquidPositionsMonitor.calculate_risk_level d = .CRITICAL)
      ∧ (2 < d → d ≤ 5 → LiquidPositionsMonitor.calculate_risk_level d = .HIGH)
      ∧ (5 < d → d ≤ 10 → LiquidPositionsMonitor.calculate_risk_level d = .MEDIUM)
      ∧ (10 < d → LiquidPositionsMonitor.calculate_risk_level d = .LOW)
      ∧ LiquidPositionsMonitor.calculate_risk_level 2 = .CRITICAL
      ∧ LiquidPositionsMonitor.calculate_risk_level (20001/10000) = .HIGH
      ∧ LiquidPositionsMonitor.calculate_risk_level 5 = .HIGH
      ∧ LiquidPositionsMonitor.calculate_risk_level (50001/10000) = .MEDIUM
      ∧ LiquidPositionsMonitor.calculate_risk_level 10 = .MEDIUM
      ∧ LiquidPositionsMonitor.calculate_risk_level (100001/10000) = .LOW := by
  refine ⟨?_, ?_, ?_, ?_, ?_, ?_, ?_, ?_, ?_, ?_⟩
  · intro h
    rw [LiquidPositionsMonitor.calculate_risk_level, if_pos h]
  · intro h1 h2
    rw [LiquidPositionsMonitor.calculate_risk_level, if_neg (by linarith), if_pos h2]
  · intro h1 h2
    rw [LiquidPositionsMonitor.calculate_risk_level, if_neg (by linarith),
      if_neg (by linarith), if_pos h2]
  · intro h
    rw [LiquidPositionsMonitor.calculate_risk_level, if_neg (by linarith),
      if_neg (by linarith), if_neg (by linarith)]
  all_goals norm_num [LiquidPositionsMonitor.calculate_risk_level]

/-- Witness for C8 exercising each of the four bands at an interior
point. -/
theorem claim_C8_risk_level_bands_witness :
    LiquidPositionsMonitor.calculate_risk_level 1 = .CRITICAL
      ∧ LiquidPositionsMonitor.calculate_risk_level 3 = .HIGH
      ∧ LiquidPositionsMonitor.calculate_risk_level 7 = .MEDIUM
      ∧ LiquidPositionsMonitor.calculate_risk_level 11 = .LOW :=
  ⟨(claim_C8_risk_level_bands 1).1 (by norm_num),
   (claim_C8_risk_level_bands 3).2.1 (by norm_num) (by norm_num),
   (claim_C8_risk_level_bands 7).2.2.1 (by norm_num) (by norm_num),
   (claim_C8_risk_level_bands 11).2.2.2.1 (by norm_num)⟩

/-- C9 fails as stated: for entry 100, leverage 20, LONG, mmr 0.004 the
liquidation price computed by the code is 23000/249 ≈ 92.37, which differs from the
claimed ≈ 91.63 by about 0.74. -/
theorem claim_C9_counterexample :
    PositionRiskCalculator.calculate_liquidation_price 100 20 1 "LONG" (1/250) = 23000/249
      ∧ ¬ (|PositionRiskCalculator.calculate_liquidation_price 100 20 1 "LONG" (1/250)
            - 9163/100| < 1/2) := by
  have h : PositionRiskCalculator.calculate_liquidation_price 100 20 1 "LONG" (1/250)
      = 23000/249 := by
    simp only [PositionRiskCalculator.calculate_liquidation_price]
    rw [if_neg (by norm_num), if_pos strUpper_LONG]
    norm_num
  refine ⟨h, ?_⟩
  rw [h, show (23000:ℚ)/249 - 9163/100 = 18413/24900 by norm_num,
    abs_of_pos (by norm_num : (0:ℚ) < 18413/24900)]
  norm_num

/-- C9 amended: the figures the code produces for the end-to-end scenario are
liquidationPrice = 23000/249 ≈ 92.37 (not ≈ 91.63); at currentPrice
93.50 the distance (LiquidationRiskCalculator) is 56300/46563 ≈ 1.21%
(not ≈ 2.04%), which classifies as CRITICAL (not HIGH). -/
theorem claim_C9_amended_end_to_end :
    PositionRiskCalculator.calculate_liquidation_price 100 20 1 "LONG" (1/250) = 23000/249
      ∧ |(23000:ℚ)/249 - 9237/100| < 1/100
      ∧ LiquidationRiskCalculator.calculate_distance_to_liquidation (187/2) (23000/249) "LONG"
          = .val (56300/46563)
      ∧ |(56300:ℚ)/46563 - 121/100| < 1/100
      ∧ LiquidPositionsMonitor.calculate_risk_level (56300/46563) = .CRITICAL := by
  refine ⟨?_, ?_, ?_, ?_, ?_⟩
  · simp only [PositionRiskCalculator.calculate_liquidation_price]
    rw [if_neg (by norm_num), if_pos strUpper_LONG]
    norm_num
  · rw [show (23000:ℚ)/249 - 9237/100 = -(13/24900) by norm_num, abs_neg,
      abs_of_pos (by norm_num : (0:ℚ) < 13/24900)]
    norm_num
  · simp only [LiquidationRiskCalculator.calculate_distance_to_liquidation]
    rw [if_neg (by norm_num)]
    rw [show ((187:ℚ)/2 - 23000/249) / (187/2) * 100 = 56300/46563 by norm_num]
    rw [max_eq_right (by norm_num : (0:ℚ) ≤ 56300/46563)]
  · rw [show (56300:ℚ)/46563 - 121/100 = -(4123/4656300) by norm_num, abs_neg,
      abs_of_pos (by norm_num : (0:ℚ) < 4123/4656300)]
    norm_num
  · norm_num [LiquidPositionsMonitor.calculate_risk_level]

/-- C3 fails as stated: with `max_retries = 3` and every attempt timing
out, the code issues 3 attempts but sleeps only twice (0.5s then 1s);
no 2s delay ever occurs, because the final attempt is not followed by a
sleep.  -/
theorem claim_C3_counterexample :
    HyperliquidAPI.make_request (fun _ => .error "Timeout") 3
        = (.failure "Timeout", [1/2, 1], 3)
      ∧ (HyperliquidAPI.make_request (fun _ => .error "Timeout") 3).2.1
          ≠ [1/2, 1, 2] := by
  have h : HyperliquidAPI.make_request (fun _ => .error "Timeout") 3
      = (.failure "Timeout", [1/2, 1], 3) := by
    norm_num [HyperliquidAPI.make_request, HyperliquidAPI.make_request_go]
  refine ⟨h, ?_⟩
  rw [h]
  intro heq
  have := congrArg List.length heq
  simp at this

/-- C3 amended: when every attempt fails, `_make_request` with
`max_retries = 3` issues exactly 3 attempts, sleeps 0.5s after the
first failure and 1s after the second (schedule `0.5 * 2 ^ attempt`,
with no sleep after the final attempt), and returns the terminal
failure dict carrying the last error instead of raising. -/
theorem claim_C3_amended_retry_schedule (err : Nat → String) :
    HyperliquidAPI.make_request (fun a => .error (err a)) 3
      = (.failure (err 2), [1/2, 1], 3) := by
  norm_num [HyperliquidAPI.make_request, HyperliquidAPI.make_request_go]

/-- C4: the dedup gate of `LargeTradesMonitor`: a fresh key is processed
and its immediate replay is dropped; the remembered-key FIFO never
exceeds 5000 entries; and pushing a 5001st distinct key into a full
FIFO keeps the size at 5000 and evicts the oldest key. -/
theorem claim_C4_dedup_fifo (seen : List String) (t : WsTrade)
    (hlen : seen.length ≤ 5000) :
    (LargeTradesMonitor.trade_key t ∉ seen →
        (LargeTradesMonitor.handle_trade seen t).2 = true
      ∧ (LargeTradesMonitor.handle_trade
          (LargeTradesMonitor.handle_trade seen t).1 t).2 = false)
      ∧ (LargeTradesMonitor.handle_trade seen t).1.length ≤ 5000
      ∧ (seen.length = 5000 → seen.Nodup → LargeTradesMonitor.trade_key t ∉ seen →
          (LargeTradesMonitor.handle_trade seen t).1.length = 5000
        ∧ ∀ k0, seen.head? = some k0 →
            k0 ∉ (LargeTradesMonitor.handle_trade seen t).1) := by
  classical
  set k := LargeTradesMonitor.trade_key t with hk
  by_cases hmem : k ∈ seen
  · refine ⟨fun hnot => absurd hmem hnot, ?_, fun _ _ hnot => absurd hmem hnot⟩
    simp only [LargeTradesMonitor.handle_trade, ← hk, if_pos hmem]
    exact hlen
  · have hres : LargeTradesMonitor.handle_trade seen t
        = (LargeTradesMonitor.push_seen seen k, true) := by
      simp only [LargeTradesMonitor.handle_trade, ← hk, if_neg hmem]
    have hkin : k ∈ LargeTradesMonitor.push_seen seen k := by
      unfold LargeTradesMonitor.push_seen
      split
      · exact List.mem_append_right _ (List.mem_singleton.mpr rfl)
      · exact List.mem_append_right _ (List.mem_singleton.mpr rfl)
    refine ⟨fun _ => ⟨by rw [hres], ?_⟩, ?_, ?_⟩
    · rw [hres]
      simp only [LargeTradesMonitor.handle_trade, ← hk, if_pos hkin]
    · rw [hres]
      unfold LargeTradesMonitor.push_seen
      split
      · next hlt =>
        simp only [List.length_append, List.length_singleton]
        omega
      · next hge =>
        have h5 : seen.length = 5000 := le_antisymm hlen (by omega)
        simp [List.length_tail, h5]
    · intro h5 hnodup _
      have hfull : ¬ seen.length < 5000 := by omega
      have hpush : LargeTradesMonitor.push_seen seen k = seen.tail ++ [k] := by
        unfold LargeTradesMonitor.push_seen
        rw [if_neg hfull]
      constructor
      · rw [hres, hpush]
        simp [List.length_tail, h5]
      · intro k0 hhead
        rw [hres, hpush]
        match seen, hhead with
        | k0 :: rest, rfl =>
          have hk0rest : k0 ∉ rest := (List.nodup_cons.mp hnodup).1
          have hk0k : k0 ≠ k := fun he => hmem (he ▸ List.mem_cons_self k0 rest)
          simp only [List.tail_cons, List.mem_append, List.mem_singleton]
          rintro (h | h)
          · exact hk0rest h
          · exact hk0k h

/-- A full dedup FIFO for the C4 witness: 5000 distinct keys (the
strings `aa…a` of lengths 0 through 4999). -/
def seenFull : List String :=
  (List.range 5000).map (fun n => String.mk (List.replicate n 'a'))

/-- A concrete websocket trade for the C4 witness; its key contains
colons, so it differs from every all-letter key in `seenFull`. -/
def tradeFresh : WsTrade := ⟨"b", "b", "b", "b", "b", "b", "b"⟩

theorem seenFull_length : seenFull.length = 5000 := by
  simp [seenFull]

theorem seenFull_nodup : seenFull.Nodup := by
  refine List.Nodup.map ?_ (List.nodup_range 5000)
  intro m n h
  have h2 : List.replicate m 'a' = List.replicate n 'a' := congrArg String.data h
  simpa using congrArg List.length h2

theorem tradeFresh_key_not_mem : LargeTradesMonitor.trade_key tradeFresh ∉ seenFull := by
  intro hmem
  have hk : LargeTradesMonitor.trade_key tradeFresh = "b:b:b:b:b:b" := rfl
  rw [hk, seenFull, List.mem_map] at hmem
  obtain ⟨n, hn, he⟩ := hmem
  have h2 : List.replicate n 'a' = "b:b:b:b:b:b".data := congrArg String.data he
  have hlen : n = 11 := by simpa using congrArg List.length h2
  subst hlen
  exact absurd h2 (by decide)

/-- Witness for C4: the full 5000-key FIFO, a fresh trade processed
once and dropped on replay, the size bound, and eviction of the oldest
key. -/
theorem claim_C4_dedup_fifo_witness :
    ((LargeTradesMonitor.handle_trade seenFull tradeFresh).2 = true
      ∧ (LargeTradesMonitor.handle_trade
          (LargeTradesMonitor.handle_trade seenFull tradeFresh).1 tradeFresh).2 = false)
      ∧ (LargeTradesMonitor.handle_trade seenFull tradeFresh).1.length ≤ 5000
      ∧ ((LargeTradesMonitor.handle_trade seenFull tradeFresh).1.length = 5000
        ∧ ∀ k0, seenFull.head? = some k0 →
            k0 ∉ (LargeTradesMonitor.handle_trade seenFull tradeFresh).1) := by
  have H := claim_C4_dedup_fifo seenFull tradeFresh (le_of_eq seenFull_length)
  exact ⟨H.1 tradeFresh_key_not_mem, H.2.1,
    H.2.2 seenFull_length seenFull_nodup tradeFresh_key_not_mem⟩

/-- Single-step watermark monotonicity for the advanced monitor. -/
theorem adv_step_wm_mono (th : ℚ) (s : MonState) (t : LiqTrade) (w : Int)
    (h : s.wm = some w) :
    ∃ w1, (LiquidationsMonitorAdvanced.check_trade th s t).wm = some w1 ∧ w ≤ w1 := by
  by_cases hliq : t.liquidation = false
  · simp only [LiquidationsMonitorAdvanced.check_trade, if_pos hliq]
    exact ⟨w, h, le_refl w⟩
  · simp only [LiquidationsMonitorAdvanced.check_trade, if_neg hliq, h]
    by_cases hts : t.time ≤ w
    · rw [if_pos hts]
      exact ⟨w, h, le_refl w⟩
    · rw [if_neg hts]
      by_cases husd : th ≤ t.px * t.sz
      · rw [if_pos husd]
        exact ⟨max t.time w, rfl, le_max_right t.time w⟩
      · rw [if_neg husd]
        exact ⟨max t.time w, rfl, le_max_right t.time w⟩

/-- Single-step watermark monotonicity for the basic monitor. -/
theorem basic_step_wm_mono (th : ℚ) (s : MonState) (t : LiqTrade) (w : Int)
    (h : s.wm = some w) :
    ∃ w1, (LiquidationsMonitorBasic.check_trade th s t).wm = some w1 ∧ w ≤ w1 := by
  by_cases hliq : t.liquidation = false
  · simp only [LiquidationsMonitorBasic.check_trade, if_pos hliq]
    exact ⟨w, h, le_refl w⟩
  · simp only [LiquidationsMonitorBasic.check_trade, if_neg hliq, h, Option.getD_some]
    by_cases hts : t.time ≤ w
    · rw [if_pos hts]
      exact ⟨w, rfl, le_refl w⟩
    · rw [if_neg hts]
      by_cases husd : th ≤ t.px * t.sz
      · rw [if_pos husd]
        exact ⟨t.time, rfl, le_of_not_le hts⟩
      · rw [if_neg husd]
        exact ⟨t.time, rfl, le_of_not_le hts⟩

/-- Watermark monotonicity for the advanced monitor over a whole
`recentTrades` page. -/
theorem adv_foldl_wm_mono (th : ℚ) (trades : List LiqTrade) :
    ∀ (s : MonState) (w : Int), s.wm = some w →
      ∃ w1, (LiquidationsMonitorAdvanced.check_recent_liquidations th s trades).wm
          = some w1 ∧ w ≤ w1 := by
  induction trades with
  | nil => exact fun s w h => ⟨w, h, le_refl w⟩
  | cons t rest ih =>
    intro s w h
    obtain ⟨w1, h1, hw1⟩ := adv_step_wm_mono th s t w h
    obtain ⟨w2, h2, hw2⟩ := ih _ w1 h1
    exact ⟨w2, h2, le_trans hw1 hw2⟩

/-- Watermark monotonicity for the basic monitor over a whole
`recentTrades` page. -/
theorem basic_foldl_wm_mono (th : ℚ) (trades : List LiqTrade) :
    ∀ (s : MonState) (w : Int), s.wm = some w →
      ∃ w1, (LiquidationsMonitorBasic.check_recent_liquidations th s trades).wm
          = some w1 ∧ w ≤ w1 := by
  induction trades with
  | nil => exact fun s w h => ⟨w, h, le_refl w⟩
  | cons t rest ih =>
    intro s w h
    obtain ⟨w1, h1, hw1⟩ := basic_step_wm_mono th s t w h
    obtain ⟨w2, h2, hw2⟩ := ih _ w1 h1
    exact ⟨w2, h2, le_trans hw1 hw2⟩

/-- C5: in both liquidation monitors, an event whose timestamp is at or
below the watermark of the asset leaves the state untouched (never displayed
or counted), and over any sequence of trades the watermark never
decreases. -/
theorem claim_C5_watermark_monotone (th : ℚ) (s : MonState) (t : LiqTrade)
    (w : Int) (trades : List LiqTrade) (hw : s.wm = some w) :
    (t.time ≤ w →
        LiquidationsMonitorAdvanced.check_trade th s t = s
      ∧ LiquidationsMonitorBasic.check_trade th s t = s)
      ∧ (∃ w1, (LiquidationsMonitorAdvanced.check_recent_liquidations th s trades).wm
            = some w1 ∧ w ≤ w1)
      ∧ (∃ w1, (LiquidationsMonitorBasic.check_recent_liquidations th s trades).wm
            = some w1 ∧ w ≤ w1) := by
  refine ⟨?_, adv_foldl_wm_mono th trades s w hw, basic_foldl_wm_mono th trades s w hw⟩
  intro hts
  constructor
  · by_cases hliq : t.liquidation = false
    · simp only [LiquidationsMonitorAdvanced.check_trade, if_pos hliq]
    · simp only [LiquidationsMonitorAdvanced.check_trade, if_neg hliq, hw]
      rw [if_pos hts]
  · by_cases hliq : t.liquidation = false
    · simp only [LiquidationsMonitorBasic.check_trade, if_pos hliq]
    · obtain ⟨wm0, dd, cc, vv⟩ := s
      simp only at hw
      subst hw
      simp only [LiquidationsMonitorBasic.check_trade, if_neg hliq, Option.getD_some]
      rw [if_pos hts]

/-- Witness for C5 at watermark 5 and a liquidation event stamped 3. -/
theorem claim_C5_watermark_monotone_witness :
    (LiquidationsMonitorAdvanced.check_trade 100 ⟨some 5, [], 0, 0⟩ ⟨true, 3, 100, 1, "SELL"⟩
        = ⟨some 5, [], 0, 0⟩
      ∧ LiquidationsMonitorBasic.check_trade 100 ⟨some 5, [], 0, 0⟩ ⟨true, 3, 100, 1, "SELL"⟩
        = ⟨some 5, [], 0, 0⟩)
      ∧ (∃ w1, (LiquidationsMonitorAdvanced.check_recent_liquidations 100 ⟨some 5, [], 0, 0⟩
            [⟨true, 7, 100, 1, "SELL"⟩]).wm = some w1 ∧ 5 ≤ w1)
      ∧ (∃ w1, (LiquidationsMonitorBasic.check_recent_liquidations 100 ⟨some 5, [], 0, 0⟩
            [⟨true, 7, 100, 1, "SELL"⟩]).wm = some w1 ∧ 5 ≤ w1) := by
  have H := claim_C5_watermark_monotone 100 ⟨some 5, [], 0, 0⟩ ⟨true, 3, 100, 1, "SELL"⟩ 5
    [⟨true, 7, 100, 1, "SELL"⟩] rfl
  exact ⟨H.1 (by decide), H.2.1, H.2.2⟩

/-- C6 fails as stated: a cycle in which no risk factor of the given
kind is produced (the condition does not hold) leaves the counter
untouched rather than resetting it to 0, so two non-consecutive
HIGH cycles separated by a quiet cycle still fire the alert. -/
theorem claim_C6_counterexample :
    PositionsAtRiskMonitor.alert_step 1 none = (1, false)
      ∧ (1 : Nat) ≠ 0
      ∧ (PositionsAtRiskMonitor.alert_run 0 [some .HIGH, none, some .HIGH]).2
          = [false, false, true] := by
  exact ⟨rfl, by decide, rfl⟩

/-- C6 amended: per `(asset, kind)` slot with threshold 2, the counter
increments on a cycle reporting HIGH/CRITICAL (firing exactly once and
resetting to 0 when it reaches 2), resets to 0 on a cycle reporting a
lower severity, and is left unchanged on a cycle producing no risk
factor of that kind; hence 2 consecutive holding cycles fire exactly
once, a 3rd does not re-fire, and 2 further holding cycles fire again. -/
theorem claim_C6_amended_debounce (c : Nat) (sev : Severity) :
    (sev = .CRITICAL ∨ sev = .HIGH →
      PositionsAtRiskMonitor.alert_step c (some sev)
        = if 2 ≤ c + 1 then (0, true) else (c + 1, false))
      ∧ (sev = .MEDIUM ∨ sev = .LOW →
          PositionsAtRiskMonitor.alert_step c (some sev) = (0, false))
      ∧ PositionsAtRiskMonitor.alert_step c none = (c, false)
      ∧ (PositionsAtRiskMonitor.alert_run 0 [some .HIGH, some .HIGH]).2 = [false, true]
      ∧ (PositionsAtRiskMonitor.alert_run 0 [some .HIGH, some .HIGH, some .HIGH]).2
          = [false, true, false]
      ∧ (PositionsAtRiskMonitor.alert_run 0
            [some .HIGH, some .HIGH, some .HIGH, some .HIGH, some .HIGH]).2
          = [false, true, false, true, false] := by
  refine ⟨?_, ?_, rfl, rfl, rfl, rfl⟩
  · rintro (h | h) <;> subst h <;>
      simp [PositionsAtRiskMonitor.alert_step]
  · rintro (h | h) <;> subst h <;>
      simp [PositionsAtRiskMonitor.alert_step]

/-- Witness for the amended C6 at counter 1 with a HIGH and a MEDIUM
cycle. -/
theorem claim_C6_amended_debounce_witness :
    PositionsAtRiskMonitor.alert_step 1 (some .HIGH) = (0, true)
      ∧ PositionsAtRiskMonitor.alert_step 1 (some .MEDIUM) = (0, false) := by
  constructor
  · have h := (claim_C6_amended_debounce 1 .HIGH).1 (Or.inr rfl)
    simpa using h
  · exact (claim_C6_amended_debounce 1 .MEDIUM).2.1 (Or.inl rfl)

/-- C10: in the advanced monitor, the first liquidation trade seen for
an asset with no watermark only installs the watermark at the timestamp
of that trade; it is itself skipped (not displayed, not counted), whatever
its USD value. -/
theorem claim_C10_first_event_initializes (th : ℚ) (s : MonState) (t : LiqTrade)
    (h1 : s.wm = none) (h2 : t.liquidation = true) :
    LiquidationsMonitorAdvanced.check_trade th s t = { s with wm := some t.time } := by
  have hliq : ¬ (t.liquidation = false) := by rw [h2]; decide
  simp only [LiquidationsMonitorAdvanced.check_trade, if_neg hliq, h1]

/-- Witness for C10 with a 100000 USD liquidation against a 50000 USD
threshold. -/
theorem claim_C10_first_event_initializes_witness :
    (50000 : ℚ) ≤ 100000 * 1
      ∧ LiquidationsMonitorAdvanced.check_trade 50000 ⟨none, [], 0, 0⟩
          ⟨true, 42, 100000, 1, "SELL"⟩
        = { (⟨none, [], 0, 0⟩ : MonState) with wm := some 42 } :=
  ⟨by norm_num,
   claim_C10_first_event_initializes 50000 ⟨none, [], 0, 0⟩
     ⟨true, 42, 100000, 1, "SELL"⟩ rfl rfl⟩

end HLTerm
